import Mathlib

/-!
Shallow embedding of the Transaction Store API of this repository
(`src/main.py`, `src/models/transaction.py`, `src/models/new_transaction_request.py`).

The service is a CRUD API over one relational table `transactions`.  We embed
the table as a list of rows (`List TransactionDB`, in insertion order — MySQL
with no ORDER BY is modelled as storage order, and `ORDER BY created_at DESC`
as a stable sort on that order), datetimes as `Nat` ticks, and the two sources
of nondeterminism of a request handler — `uuid.uuid4()` and the server-side
`func.now()` — as explicit parameters `newId` and `now`.  Each endpoint
becomes a function from its inputs and the current store to a result
(`Except ApiError _` mirroring `HTTPException` raising) and a post store;
on an error the store passed out is the store as left by the handler's
rollback.  Python floats carry no arithmetic anywhere in this service (prices
are only stored and echoed back), so `float` is embedded as `Rat`.
-/

/-- The `status` enum of the table and of the Pydantic models:
`Enum("pending", "accepted", "rejected", "canceled", "completed")`. -/
inductive TStatus where
  | pending
  | accepted
  | rejected
  | canceled
  | completed
deriving DecidableEq, Repr

/-- The `type` enum: `Enum("trade", "purchase")`. -/
inductive TType where
  | trade
  | purchase
deriving DecidableEq, Repr

/-- Values of `UpdateStatusRequest.status`, declared as
`Literal["accepted","rejected","canceled","completed"]` (`src/main.py` line
133): the update payload cannot carry `pending`. -/
inductive UpdStatus where
  | accepted
  | rejected
  | canceled
  | completed
deriving DecidableEq, Repr

/-- Inclusion of the update-status literal into the full status enum. -/
def UpdStatus.toStatus : UpdStatus → TStatus
  | .accepted => .accepted
  | .rejected => .rejected
  | .canceled => .canceled
  | .completed => .completed

/-- A row of the `transactions` table (`class TransactionDB`, `src/main.py`
lines 59-78).  The table has exactly these columns; note it has NO
`requested_item_id`, `initiator_user_id`, `receiver_user_id` or
`offered_item_id` column.  `created_at`/`updated_at` are server-assigned
(`server_default=func.now()`, `onupdate=func.now()`), modelled as `Nat`. -/
structure TransactionDB where
  transaction_id : String
  type : TType
  offered_price : Option Rat
  status : TStatus
  message : Option String
  idempotency_key : Option String
  created_at : Nat
  updated_at : Nat
deriving DecidableEq, Repr

/-- The request body of create (`NewTransactionRequest`,
`src/models/new_transaction_request.py`).  Pydantic fills `status` with its
declared default `"pending"` and the optional fields with `None` when the
client omits them; the embedding receives the post-validation record. -/
structure NewTransactionRequest where
  requested_item_id : String
  initiator_user_id : String
  receiver_user_id : String
  type : TType
  offered_item_id : Option String
  offered_price : Option Rat
  message : Option String
  status : TStatus
deriving DecidableEq, Repr

/-- The declared default of `NewTransactionRequest.status`
(`default="pending"`). -/
def defaultStatus : TStatus := .pending

/-- The fields that the helper `db_to_transaction` (`src/main.py` lines
119-129) actually assigns when it builds the response.  The declared response
model `Transaction` (`src/models/transaction.py`) additionally requires
`requested_item_id`, `initiator_user_id`, `receiver_user_id` (and declares
`offered_item_id`) — fields the table does not store and the helper does not
pass; that divergence is recorded by the theorems below, and this structure
embeds the record of assignments the helper's source performs. -/
structure TransactionOut where
  transaction_id : String
  type : TType
  offered_price : Option Rat
  status : TStatus
  message : Option String
  created_at : Nat
  updated_at : Nat
deriving DecidableEq, Repr

/-- The keyword arguments the `Transaction(...)` constructor call inside
`db_to_transaction` (`src/main.py` lines 121-129) passes: a field-by-field
copy of the row. -/
def transactionArgs (r : TransactionDB) : TransactionOut :=
  { transaction_id := r.transaction_id
    type := r.type
    offered_price := r.offered_price
    status := r.status
    message := r.message
    created_at := r.created_at
    updated_at := r.updated_at }

/-- The error outcomes an endpoint can raise: `HTTPException(404, "Transaction
not found")` (a client error) and `HTTPException(500, detail=str(e))` (the
generic server error of every `except Exception` handler). -/
inductive ApiError where
  | notFound
  | serverError
deriving DecidableEq, Repr

/-- Required fields of the declared response model `Transaction`
(`src/models/transaction.py`, declared `Field(...)`, i.e. with no default)
that the constructor call in `db_to_transaction` does not pass. -/
def db_to_transaction_missing_required : List String :=
  ["requested_item_id", "initiator_user_id", "receiver_user_id"]

/-- Embedding of `db_to_transaction` (`src/main.py` lines 119-129): the
helper constructs `Transaction(...)` passing only the fields of
`transactionArgs`.  Pydantic validates the constructor call against the
model's declared required fields, and because
`db_to_transaction_missing_required` is non-empty, every call raises
`ValidationError`; the raise reaches the calling handler's
`except Exception` clause, which answers the generic 500. -/
def db_to_transaction (r : TransactionDB) : Except ApiError TransactionOut :=
  if db_to_transaction_missing_required.isEmpty then .ok (transactionArgs r)
  else .error .serverError

/-- The database state: the rows of the `transactions` table in storage
(insertion) order. -/
abbrev Store := List TransactionDB

/-- Rows returned by `SELECT ... WHERE transactions.transaction_id = tid`:
the primary-key equality filter. -/
def rowsById (s : Store) (tid : String) : List TransactionDB :=
  s.filter (fun r => r.transaction_id == tid)

/-- Rows returned by `SELECT ... WHERE transactions.idempotency_key = k`:
the idempotency-key equality filter.  SQL `NULL = k` is not true, so a
`none` key never matches. -/
def rowsByKey (s : Store) (k : String) : List TransactionDB :=
  s.filter (fun r => r.idempotency_key == some k)

/-- Embedding of `Result.scalar_one_or_none()`: `None` on no row, the row
when unique, and raises (`MultipleResultsFound`, reaching the generic 500
handler) when the filter matched more than one row. -/
def scalar_one_or_none (l : List TransactionDB) : Except ApiError (Option TransactionDB) :=
  match l with
  | [] => .ok none
  | [r] => .ok (some r)
  | _ => .error .serverError

/-- Python truthiness of `x_idempotency_key` in `if x_idempotency_key:`
(`src/main.py` line 166): `None` and the empty string are falsy. -/
def pyTruthy : Option String → Bool
  | none => false
  | some s => !(s == "")

/-- The row built by `TransactionDB(...)` in `create_transaction`
(`src/main.py` lines 175-182) after the server fills the two timestamp
defaults at commit/refresh: a fresh uuid, the payload's `type`,
`offered_price`, `status` and `message`, the raw header as
`idempotency_key`, and `now` for both timestamps. -/
def newRow (p : NewTransactionRequest) (key : Option String) (newId : String)
    (now : Nat) : TransactionDB :=
  { transaction_id := newId
    type := p.type
    offered_price := p.offered_price
    status := p.status
    message := p.message
    idempotency_key := key
    created_at := now
    updated_at := now }

/-- Whether `db.commit()` of an INSERT of `r` into `s` raises
`IntegrityError`: the table's PRIMARY KEY on `transaction_id` and the UNIQUE
constraint on `idempotency_key` (`unique=True`, NULLs exempt as in MySQL)
are the only constraints. -/
def insertViolates (s : Store) (r : TransactionDB) : Bool :=
  s.any (fun x => x.transaction_id == r.transaction_id) ||
    (match r.idempotency_key with
     | none => false
     | some k => s.any (fun x => x.idempotency_key == some k))

/-- Endpoint `POST /transactions/transaction` (`create_transaction`, `src/main.py`
lines 158-193), with the two moments the handler touches the database made
explicit: `pre` is the state the idempotency pre-check SELECT sees and `ins`
the state the INSERT commits against.  A sequential call has `pre = ins`
(see `create_transaction_seq`); they differ exactly when a concurrent create
commits between the two.  On the replay path the response build
(`db_to_transaction`) raises before any write, so the rollback leaves the
store untouched; on the insert path `db.commit()` precedes the response
build, so the inserted row survives the post-commit rollback while the
handler answers 500; a constraint violation at commit aborts the insert. -/
def create_transaction (p : NewTransactionRequest) (x_idempotency_key : Option String)
    (newId : String) (now : Nat) (pre ins : Store) :
    Except ApiError TransactionOut × Store :=
  match (if pyTruthy x_idempotency_key then
           scalar_one_or_none (rowsByKey pre (x_idempotency_key.getD ""))
         else .ok none) with
  | .error e => (.error e, ins)
  | .ok (some existing) =>
    (match db_to_transaction existing with
     | .error e => (.error e, ins)
     | .ok t => (.ok t, ins))
  | .ok none =>
    if insertViolates ins (newRow p x_idempotency_key newId now) then
      (.error .serverError, ins)
    else
      match db_to_transaction (newRow p x_idempotency_key newId now) with
      | .error e => (.error e, ins ++ [newRow p x_idempotency_key newId now])
      | .ok t => (.ok t, ins ++ [newRow p x_idempotency_key newId now])

/-- A sequential (non-interleaved) create: pre-check and insert see the same
state. -/
def create_transaction_seq (p : NewTransactionRequest) (x_idempotency_key : Option String)
    (newId : String) (now : Nat) (s : Store) :
    Except ApiError TransactionOut × Store :=
  create_transaction p x_idempotency_key newId now s s

/-- Endpoint `GET /transactions/{transaction_id}` (`get_transaction`, `src/main.py`
lines 196-210): select by primary key, 404 when absent; a pure read either
way — but for an existing row the response build (`db_to_transaction`)
raises and the handler answers 500. -/
def get_transaction (tid : String) (s : Store) :
    Except ApiError TransactionOut × Store :=
  match scalar_one_or_none (rowsById s tid) with
  | .error e => (.error e, s)
  | .ok none => (.error .notFound, s)
  | .ok (some r) =>
    match db_to_transaction r with
    | .error e => (.error e, s)
    | .ok t => (.ok t, s)

/-- Whether a row passes the optional equality filters of the list endpoint
(`src/main.py` lines 225-228): the conjunction of the supplied clauses. -/
def matchesFilters (status_param : Option TStatus) (type_ : Option TType)
    (r : TransactionDB) : Bool :=
  (match status_param with
   | none => true
   | some st => r.status == st) &&
    (match type_ with
     | none => true
     | some ty => r.type == ty)

/-- Comparison of `ORDER BY created_at DESC` as a Bool relation for the
stable sort. -/
def createdDesc (a b : TransactionDB) : Bool :=
  b.created_at ≤ a.created_at

/-- The Python defaults `limit: int = 50`, `offset: int = 0` of the list
endpoint (`src/main.py` lines 217-218). -/
def LIMIT_DEFAULT : Nat := 50

def OFFSET_DEFAULT : Nat := 0

/-- Rows the list SELECT returns (`src/main.py` lines 222-234): WHERE-filter
by the supplied clauses, `ORDER BY created_at DESC` (ties kept in storage
order: a stable sort), then `OFFSET offset` and `LIMIT limit`. -/
def selectedRows (status_param : Option TStatus) (type_ : Option TType)
    (limit offset : Nat) (s : Store) : List TransactionDB :=
  (((s.filter (matchesFilters status_param type_)).mergeSort
      createdDesc).drop offset).take limit

/-- Endpoint `GET /transactions` (`list_transactions`, `src/main.py` lines 213-238):
runs the SELECT of `selectedRows`, then builds the response with the
comprehension `[db_to_transaction(t) for t in db_transactions]` — whose
first element raises, so any non-empty result set becomes a 500 and only
the empty result set is answered successfully.  A pure read either way. -/
def list_transactions (status_param : Option TStatus) (type_ : Option TType)
    (limit offset : Nat) (s : Store) :
    Except ApiError (List TransactionOut) × Store :=
  ((selectedRows status_param type_ limit offset s).mapM db_to_transaction, s)

/-- The list call with both pagination parameters left at their declared
defaults. -/
def list_transactions_defaults (status_param : Option TStatus) (type_ : Option TType)
    (s : Store) : Except ApiError (List TransactionOut) × Store :=
  list_transactions status_param type_ LIMIT_DEFAULT OFFSET_DEFAULT s

/-- The UPDATE `update_transaction` commits (`src/main.py` lines 255-259):
`status` set from the payload and, because of `onupdate=func.now()` on
`updated_at`, the timestamp refreshed to the commit time; every other column
kept.  The SQL UPDATE is keyed on the primary key, so it rewrites exactly the
rows with that `transaction_id`. -/
def setStatus (u : UpdStatus) (now : Nat) (r : TransactionDB) : TransactionDB :=
  { r with status := u.toStatus, updated_at := now }

/-- Endpoint `PUT /transactions/{transaction_id}` (`update_transaction`, `src/main.py`
lines 241-266): select by primary key, 404 when absent; otherwise overwrite
`status` unconditionally (no transition check) and commit (refreshing
`updated_at`).  The commit precedes the response build, so the mutation
persists while `db_to_transaction` raises and the handler answers 500 (the
post-commit rollback undoes nothing). -/
def update_transaction (tid : String) (payload : UpdStatus) (now : Nat)
    (s : Store) : Except ApiError TransactionOut × Store :=
  match scalar_one_or_none (rowsById s tid) with
  | .error e => (.error e, s)
  | .ok none => (.error .notFound, s)
  | .ok (some r) =>
    match db_to_transaction (setStatus payload now r) with
    | .error e =>
      (.error e, s.map (fun x => if x.transaction_id == tid then setStatus payload now x else x))
    | .ok t =>
      (.ok t, s.map (fun x => if x.transaction_id == tid then setStatus payload now x else x))

/-- Endpoint `DELETE /transactions/{transaction_id}` (`delete_transaction`,
`src/main.py` lines 269-290): select by primary key, 404 when absent;
otherwise snapshot the row (`db_to_transaction`, line 280) and only then
DELETE it (keyed on the primary key), commit, and return the snapshot.
Because the snapshot build raises BEFORE `db.delete`, the handler answers
500 with no row removed; the removal lives in the unreached success
branch. -/
def delete_transaction (tid : String) (s : Store) :
    Except ApiError TransactionOut × Store :=
  match scalar_one_or_none (rowsById s tid) with
  | .error e => (.error e, s)
  | .ok none => (.error .notFound, s)
  | .ok (some r) =>
    match db_to_transaction r with
    | .error e => (.error e, s)
    | .ok snapshot =>
      (.ok snapshot, s.filter (fun x => !(x.transaction_id == tid)))

/-! Concrete sample data used by witnesses and counterexamples. -/

/-- A well-formed create payload (a trade request from alice to bob). -/
def samplePayload : NewTransactionRequest :=
  { requested_item_id := "item-1"
    initiator_user_id := "alice"
    receiver_user_id := "bob"
    type := .trade
    offered_item_id := none
    offered_price := none
    message := none
    status := .pending }

/-- The same payload with different item/user reference fields (the fields
the table does not store). -/
def variantPayload : NewTransactionRequest :=
  { requested_item_id := "item-OTHER"
    initiator_user_id := "carol"
    receiver_user_id := "dave"
    type := .trade
    offered_item_id := some "item-9"
    offered_price := none
    message := none
    status := .pending }

/-- A stored row whose idempotency key is the empty string. -/
def rowEmptyKey : TransactionDB :=
  { transaction_id := "t0"
    type := .trade
    offered_price := none
    status := .pending
    message := none
    idempotency_key := some ""
    created_at := 0
    updated_at := 0 }

/-- A stored row whose idempotency key is `"k"`. -/
def rowKeyK : TransactionDB :=
  { transaction_id := "t8"
    type := .purchase
    offered_price := none
    status := .pending
    message := none
    idempotency_key := some "k"
    created_at := 3
    updated_at := 3 }

/-- The uniqueness invariant backed by the table's `unique=True` constraint
on `idempotency_key`: at most one row per non-null key (rows whose key is
`none` are exempt, as MySQL exempts NULLs). -/
def KeyUnique (s : Store) : Prop :=
  List.Pairwise
    (fun a b => ∀ k : String, a.idempotency_key = some k → b.idempotency_key ≠ some k) s

/-! Helper lemmas shared by the claim theorems. -/

theorem rowsByKey_eq_nil_iff (s : Store) (k : String) :
    rowsByKey s k = [] ↔ ∀ x ∈ s, x.idempotency_key ≠ some k := by
  simp [rowsByKey]

theorem rowsByKey_append (s t : Store) (k : String) :
    rowsByKey (s ++ t) k = rowsByKey s k ++ rowsByKey t k := by
  simp [rowsByKey, List.filter_append]

theorem pyTruthy_of_ne_empty (k : String) (hk : k ≠ "") :
    pyTruthy (some k) = true := by
  simp [pyTruthy, hk]

theorem db_to_transaction_eq (r : TransactionDB) :
    db_to_transaction r = Except.error ApiError.serverError := rfl

theorem insertViolates_eq_false (s : Store) (r : TransactionDB)
    (hid : ∀ x ∈ s, x.transaction_id ≠ r.transaction_id)
    (hkey : ∀ x ∈ s, ∀ k, r.idempotency_key = some k → x.idempotency_key ≠ some k) :
    insertViolates s r = false := by
  simp only [insertViolates, Bool.or_eq_false_iff]
  constructor
  · simp only [List.any_eq_false]
    intro x hx
    simpa using hid x hx
  · cases hr : r.idempotency_key with
    | none => rfl
    | some k =>
      simp only [List.any_eq_false]
      intro x hx
      simpa using hkey x hx k hr

theorem create_seq_existing_key_500
    (p : NewTransactionRequest) (k : String) (s : Store) (newId : String)
    (now : Nat) (r : TransactionDB) (hr : rowsByKey s k = [r]) :
    create_transaction_seq p (some k) newId now s
      = (Except.error ApiError.serverError, s) := by
  have hrmem : r ∈ s ∧ (r.idempotency_key == some k) = true := by
    have h1 : r ∈ rowsByKey s k := by rw [hr]; exact List.mem_singleton_self r
    rw [rowsByKey, List.mem_filter] at h1
    exact h1
  by_cases hk : k = ""
  · subst hk
    have hany : s.any (fun x => x.idempotency_key == some "") = true :=
      List.any_eq_true.mpr ⟨r, hrmem.1, hrmem.2⟩
    have hconf : insertViolates s (newRow p (some "") newId now) = true := by
      simp [insertViolates, newRow, hany]
    simp [create_transaction_seq, create_transaction, pyTruthy, hconf]
  · have hkt := pyTruthy_of_ne_empty k hk
    simp [create_transaction_seq, create_transaction, hkt, hr, scalar_one_or_none,
      db_to_transaction_eq]

/-- C1: the storage half of the idempotent-create contract holds, but the
response half is broken.  If a row with the supplied key already exists
(whether the key is empty or not), create inserts no new row and mutates no
row — yet it answers the generic 500 server error instead of returning the
existing row (the response build raises `ValidationError`, or for the
falsy empty key the retried insert hits the uniqueness constraint).  Two
sequential creates with the same key from a key-free state leave exactly one
row for that key, but both answer 500, so no response ever carries the
stored `transaction_id`. -/
theorem create_replay_answers_500_but_stores_once
    (p : NewTransactionRequest) (k : String) (s : Store)
    (newId newId2 : String) (now now2 : Nat) :
    (∀ r : TransactionDB, rowsByKey s k = [r] →
      create_transaction_seq p (some k) newId now s
        = (Except.error ApiError.serverError, s)) ∧
    (rowsByKey s k = [] → (∀ x ∈ s, x.transaction_id ≠ newId) →
      create_transaction_seq p (some k) newId now s
        = (Except.error ApiError.serverError, s ++ [newRow p (some k) newId now]) ∧
      create_transaction_seq p (some k) newId2 now2 (s ++ [newRow p (some k) newId now])
        = (Except.error ApiError.serverError, s ++ [newRow p (some k) newId now]) ∧
      (rowsByKey (s ++ [newRow p (some k) newId now]) k).length = 1) := by
  constructor
  · intro r hr
    exact create_seq_existing_key_500 p k s newId now r hr
  · intro hnil hfresh
    have hviol : insertViolates s (newRow p (some k) newId now) = false := by
      refine insertViolates_eq_false s _ ?_ ?_
      · intro x hx
        simpa [newRow] using hfresh x hx
      · intro x hx k2 hk2
        have hx2 := (rowsByKey_eq_nil_iff s k).mp hnil x hx
        have hkk : k = k2 := by simpa [newRow] using hk2
        simpa [hkk] using hx2
    have hscrut : (if pyTruthy (some k) then
        scalar_one_or_none (rowsByKey s ((some k).getD "")) else Except.ok none)
        = Except.ok (none : Option TransactionDB) := by
      by_cases hp : pyTruthy (some k) = true
      · simp [hp, hnil, scalar_one_or_none]
      · rw [Bool.not_eq_true] at hp
        simp [hp]
    have h1 : rowsByKey (s ++ [newRow p (some k) newId now]) k
        = [newRow p (some k) newId now] := by
      rw [rowsByKey_append, hnil]
      simp [rowsByKey, newRow]
    refine ⟨?_, ?_, ?_⟩
    · rw [create_transaction_seq, create_transaction, hscrut]
      simp [hviol, db_to_transaction_eq]
    · exact create_seq_existing_key_500 p k _ newId2 now2 _ h1
    · rw [h1]
      rfl

/-- Witness for C1's theorem at a concrete input: the empty store, key
`"key-1"`, fresh ids `"t1"`, `"t2"`. -/
theorem create_replay_answers_500_but_stores_once_witness :
    rowsByKey ([] : Store) "key-1" = [] ∧
    create_transaction_seq samplePayload (some "key-1") "t1" 0 []
      = (Except.error ApiError.serverError,
         [] ++ [newRow samplePayload (some "key-1") "t1" 0]) ∧
    create_transaction_seq samplePayload (some "key-1") "t2" 1
        ([] ++ [newRow samplePayload (some "key-1") "t1" 0])
      = (Except.error ApiError.serverError,
         [] ++ [newRow samplePayload (some "key-1") "t1" 0]) ∧
    (rowsByKey ([] ++ [newRow samplePayload (some "key-1") "t1" 0]) "key-1").length = 1 :=
  have hthm := (create_replay_answers_500_but_stores_once samplePayload "key-1" []
    "t1" "t2" 0 1).2 rfl (by simp)
  ⟨rfl, hthm.1, hthm.2.1, hthm.2.2⟩

theorem keyUnique_append_singleton (s : Store) (r : TransactionDB)
    (h : KeyUnique s)
    (hr : ∀ x ∈ s, ∀ k : String, x.idempotency_key = some k → r.idempotency_key ≠ some k) :
    KeyUnique (s ++ [r]) := by
  rw [KeyUnique, List.pairwise_append]
  refine ⟨h, List.pairwise_singleton _ _, ?_⟩
  intro a ha b hb k hk
  have hb2 : b = r := by simpa using hb
  subst hb2
  exact hr a ha k hk

theorem create_store_cases (p : NewTransactionRequest) (key : Option String)
    (newId : String) (now : Nat) (pre ins : Store) :
    (create_transaction p key newId now pre ins).2 = ins ∨
    ((create_transaction p key newId now pre ins).2 = ins ++ [newRow p key newId now] ∧
      insertViolates ins (newRow p key newId now) = false) := by
  rw [create_transaction]
  cases hpre2 : (if pyTruthy key then
      scalar_one_or_none (rowsByKey pre (key.getD "")) else .ok none) with
  | error e => exact Or.inl rfl
  | ok o =>
    cases o with
    | some existing =>
      cases hdb : db_to_transaction existing with
      | error e => exact Or.inl rfl
      | ok t => exact Or.inl rfl
    | none =>
      by_cases hviol : insertViolates ins (newRow p key newId now) = true
      · exact Or.inl (by simp [hviol])
      · rw [Bool.not_eq_true] at hviol
        cases hdb : db_to_transaction (newRow p key newId now) with
        | error e => exact Or.inr ⟨by simp [hviol, hdb], hviol⟩
        | ok t => exact Or.inr ⟨by simp [hviol, hdb], hviol⟩

theorem keyUnique_create (p : NewTransactionRequest) (key : Option String)
    (newId : String) (now : Nat) (s : Store) (h : KeyUnique s) :
    KeyUnique (create_transaction_seq p key newId now s).2 := by
  rcases create_store_cases p key newId now s s with hc | ⟨hc, hviol⟩
  · rw [create_transaction_seq, hc]
    exact h
  · rw [create_transaction_seq, hc]
    refine keyUnique_append_singleton s _ h ?_
    intro x hx k hk hk2
    have hkey : key = some k := by simpa [newRow] using hk2
    rw [insertViolates, Bool.or_eq_false_iff] at hviol
    have h2 := hviol.2
    simp only [newRow, hkey] at h2
    rw [List.any_eq_false] at h2
    exact absurd (by simpa using hk) (h2 x hx)

theorem keyUnique_get (tid : String) (s : Store) (h : KeyUnique s) :
    KeyUnique (get_transaction tid s).2 := by
  rw [get_transaction]
  cases hres : scalar_one_or_none (rowsById s tid) with
  | error e => exact h
  | ok o => cases o with
    | none => exact h
    | some r =>
      cases hdb : db_to_transaction r with
      | error e => exact h
      | ok t => exact h

theorem keyUnique_update (tid : String) (u : UpdStatus) (now : Nat)
    (s : Store) (h : KeyUnique s) :
    KeyUnique (update_transaction tid u now s).2 := by
  have hmap : KeyUnique
      (s.map (fun x => if x.transaction_id == tid then setStatus u now x else x)) := by
    refine List.Pairwise.map _ ?_ h
    intro a b hab k hk
    by_cases ha : a.transaction_id == tid <;>
      by_cases hb : b.transaction_id == tid <;>
      simp only [ha, hb, if_pos, if_neg, setStatus] at hk ⊢ <;>
      exact hab k hk
  rw [update_transaction]
  cases hres : scalar_one_or_none (rowsById s tid) with
  | error e => exact h
  | ok o => cases o with
    | none => exact h
    | some r =>
      cases hdb : db_to_transaction (setStatus u now r) with
      | error e => exact hmap
      | ok t => exact hmap

theorem keyUnique_delete (tid : String) (s : Store) (h : KeyUnique s) :
    KeyUnique (delete_transaction tid s).2 := by
  rw [delete_transaction]
  cases hres : scalar_one_or_none (rowsById s tid) with
  | error e => exact h
  | ok o => cases o with
    | none => exact h
    | some r =>
      cases hdb : db_to_transaction r with
      | error e => exact h
      | ok t => exact h

/-- C2: the at-most-one-row-per-non-null-idempotency-key invariant is
preserved by every one of the five operations: starting from any store
satisfying it, the store after create, get-by-id, list, update-status and
delete still satisfies it (the reads leave the store untouched). -/
theorem key_uniqueness_invariant_preserved
    (s : Store) (h : KeyUnique s)
    (p : NewTransactionRequest) (key : Option String) (newId : String) (now : Nat)
    (tid tid2 tid3 : String) (u : UpdStatus) (now2 : Nat)
    (stp : Option TStatus) (tp : Option TType) (lim off : Nat) :
    KeyUnique (create_transaction_seq p key newId now s).2 ∧
    KeyUnique (get_transaction tid s).2 ∧
    KeyUnique (list_transactions stp tp lim off s).2 ∧
    KeyUnique (update_transaction tid2 u now2 s).2 ∧
    KeyUnique (delete_transaction tid3 s).2 :=
  ⟨keyUnique_create p key newId now s h,
   keyUnique_get tid s h,
   h,
   keyUnique_update tid2 u now2 s h,
   keyUnique_delete tid3 s h⟩

/-- Witness for C2's theorem: a two-row store satisfying the invariant, with
one concrete call of every operation. -/
theorem key_uniqueness_invariant_preserved_witness :
    KeyUnique [rowEmptyKey, rowKeyK] ∧
    (KeyUnique (create_transaction_seq samplePayload (some "key-1") "t1" 4
        [rowEmptyKey, rowKeyK]).2 ∧
      KeyUnique (get_transaction "t0" [rowEmptyKey, rowKeyK]).2 ∧
      KeyUnique (list_transactions none none 50 0 [rowEmptyKey, rowKeyK]).2 ∧
      KeyUnique (update_transaction "t8" UpdStatus.accepted 9 [rowEmptyKey, rowKeyK]).2 ∧
      KeyUnique (delete_transaction "t0" [rowEmptyKey, rowKeyK]).2) :=
  have hku : KeyUnique [rowEmptyKey, rowKeyK] := by
    rw [KeyUnique]
    refine List.Pairwise.cons ?_ (List.pairwise_singleton _ _)
    intro b hb k hk
    have hb2 : b = rowKeyK := by simpa using hb
    subst hb2
    intro hc
    rw [show rowEmptyKey.idempotency_key = some "" from rfl] at hk
    rw [show rowKeyK.idempotency_key = some "k" from rfl] at hc
    have h1 : k = "" := by simpa using hk.symm
    have h2 : k = "k" := by simpa using hc.symm
    simp [h1] at h2
  ⟨hku, key_uniqueness_invariant_preserved [rowEmptyKey, rowKeyK] hku
    samplePayload (some "key-1") "t1" 4 "t0" "t8" "t0" UpdStatus.accepted 9
    none none 50 0⟩

/-- C3: the code drops the item/user reference fields of the payload.  Two
create payloads that differ exactly in `requested_item_id`,
`initiator_user_id`, `receiver_user_id` and `offered_item_id` produce
identical stores and identical responses, and reading the created id back
yields identical outcomes — so the read-back cannot equal the submitted
payload in those fields, contrary to the claim (the `transactions` table has
no such columns and `db_to_transaction` never assigns them, although the
declared response model requires them — which is also why the response
build raises and the handlers answer 500). -/
theorem create_ignores_item_and_user_reference_fields :
    samplePayload.requested_item_id ≠ variantPayload.requested_item_id ∧
    samplePayload.initiator_user_id ≠ variantPayload.initiator_user_id ∧
    samplePayload.receiver_user_id ≠ variantPayload.receiver_user_id ∧
    samplePayload.offered_item_id ≠ variantPayload.offered_item_id ∧
    create_transaction_seq samplePayload none "t1" 0 []
      = create_transaction_seq variantPayload none "t1" 0 [] ∧
    get_transaction "t1" (create_transaction_seq samplePayload none "t1" 0 []).2
      = get_transaction "t1" (create_transaction_seq variantPayload none "t1" 0 []).2 :=
  ⟨by decide, by decide, by decide, by decide, rfl, rfl⟩

/-- C4: the list query itself honours the claimed contract — the endpoint is
a pure read; every selected row is a stored row satisfying the conjunction
of the supplied filters; the selection is ordered by `created_at`
descending; at most `limit` rows are selected; the page at `offset` is the
page of size `offset + limit` at offset zero with its first `offset`
elements dropped; with `offset = 0` and a `limit` at least the number of
matching rows the selection is exactly the matching rows; and the defaulted
call is the call with `limit = 50`, `offset = 0`.  BUT the response
comprehension raises on its first element, so the endpoint answers the rows
to nobody: an empty result set yields `ok []` and any non-empty result set
yields the generic 500 server error. -/
theorem list_query_correct_but_endpoint_500s
    (stp : Option TStatus) (tp : Option TType) (lim off : Nat) (s : Store) :
    (list_transactions stp tp lim off s).2 = s ∧
    (∀ r ∈ selectedRows stp tp lim off s, r ∈ s ∧ matchesFilters stp tp r = true) ∧
    List.Pairwise (fun a b : TransactionDB => b.created_at ≤ a.created_at)
      (selectedRows stp tp lim off s) ∧
    (selectedRows stp tp lim off s).length ≤ lim ∧
    selectedRows stp tp lim off s = (selectedRows stp tp (off + lim) 0 s).drop off ∧
    (off = 0 → (s.filter (matchesFilters stp tp)).length ≤ lim →
      (selectedRows stp tp lim off s).Perm (s.filter (matchesFilters stp tp))) ∧
    list_transactions_defaults stp tp s
      = list_transactions stp tp LIMIT_DEFAULT OFFSET_DEFAULT s ∧
    (selectedRows stp tp lim off s = [] →
      (list_transactions stp tp lim off s).1 = Except.ok []) ∧
    (∀ (r : TransactionDB) (rest : List TransactionDB),
      selectedRows stp tp lim off s = r :: rest →
      (list_transactions stp tp lim off s).1 = Except.error ApiError.serverError) := by
  have htrans : ∀ a b c : TransactionDB,
      createdDesc a b → createdDesc b c → createdDesc a c := by
    intro a b c hab hbc
    simp only [createdDesc, decide_eq_true_eq] at hab hbc ⊢
    exact le_trans hbc hab
  have htot : ∀ a b : TransactionDB, createdDesc a b || createdDesc b a := by
    intro a b
    simp only [createdDesc, Bool.or_eq_true, decide_eq_true_eq]
    exact Nat.le_total b.created_at a.created_at
  have hsub : (selectedRows stp tp lim off s).Sublist
      ((s.filter (matchesFilters stp tp)).mergeSort createdDesc) :=
    (List.take_sublist _ _).trans (List.drop_sublist _ _)
  refine ⟨rfl, ?_, ?_, ?_, ?_, ?_, rfl, ?_, ?_⟩
  · intro r hr
    have hr2 : r ∈ (s.filter (matchesFilters stp tp)).mergeSort createdDesc :=
      hsub.mem hr
    rw [List.mem_mergeSort, List.mem_filter] at hr2
    exact hr2
  · have hsort := List.sorted_mergeSort htrans htot (s.filter (matchesFilters stp tp))
    refine (hsort.sublist hsub).imp ?_
    intro a b hab
    simpa only [createdDesc, decide_eq_true_eq] using hab
  · simp only [selectedRows, List.length_take]
    exact Nat.min_le_left _ _
  · simp only [selectedRows, List.drop_zero]
    exact List.take_drop off lim _
  · intro h0 hlen
    subst h0
    simp only [selectedRows, List.drop_zero]
    rw [List.take_of_length_le (by simpa using hlen)]
    exact List.mergeSort_perm _ _
  · intro he
    have h1 : (list_transactions stp tp lim off s).1
        = (selectedRows stp tp lim off s).mapM db_to_transaction := rfl
    rw [h1, he]
    rfl
  · intro r rest he
    have h1 : (list_transactions stp tp lim off s).1
        = (selectedRows stp tp lim off s).mapM db_to_transaction := rfl
    rw [h1, he]
    rfl

/-- Witness for C4's theorem: a one-row store, no filters, default
pagination — the SELECT returns the row and the endpoint answers 500. -/
theorem list_query_correct_but_endpoint_500s_witness :
    selectedRows none none 50 0 [rowKeyK] = [rowKeyK] ∧
    (list_transactions none none 50 0 [rowKeyK]).1 = Except.error ApiError.serverError :=
  have hsel : selectedRows none none 50 0 [rowKeyK] = [rowKeyK] := by
    rw [selectedRows,
      show List.filter (matchesFilters none none) [rowKeyK] = [rowKeyK] from rfl,
      List.mergeSort_singleton]
    rfl
  ⟨hsel, (list_query_correct_but_endpoint_500s none none 50 0 [rowKeyK]).2.2.2.2.2.2.2.2
    rowKeyK [] hsel⟩

theorem rowsById_singleton_mem (s : Store) (tid : String) (r : TransactionDB)
    (h : rowsById s tid = [r]) : r ∈ s ∧ (r.transaction_id == tid) = true := by
  have hr : r ∈ rowsById s tid := by rw [h]; exact List.mem_singleton_self r
  rw [rowsById, List.mem_filter] at hr
  exact hr

theorem rowsById_map_update (s : Store) (tid : String) (u : UpdStatus) (now : Nat) :
    rowsById (s.map (fun x => if x.transaction_id == tid then setStatus u now x else x)) tid
      = (rowsById s tid).map (fun x => if x.transaction_id == tid then setStatus u now x else x) := by
  rw [rowsById, rowsById, List.filter_map]
  have hpf : ((fun x : TransactionDB => x.transaction_id == tid) ∘
        (fun x => if x.transaction_id == tid then setStatus u now x else x))
      = fun x : TransactionDB => x.transaction_id == tid := by
    funext x
    by_cases hx : x.transaction_id = tid <;> simp [hx, setStatus]
  rw [hpf]

/-- C5: when the row exists, the UPDATE commits for every one of the four
payload statuses whatever the prior status (the theorem carries no
hypothesis relating the two, so e.g. a rejected row is moved to accepted):
the store rewrites the selected row to carry the new status with
`updated_at` refreshed to `now` — but the handler answers the generic 500
server error instead of returning the post-update row (the response build
raises after the commit), and the follow-up get on the updated row answers
500 as well. -/
theorem update_commits_status_but_answers_500
    (s : Store) (tid : String) (r : TransactionDB) (u : UpdStatus) (now : Nat)
    (h : rowsById s tid = [r]) :
    update_transaction tid u now s
      = (Except.error ApiError.serverError,
         s.map (fun x => if x.transaction_id == tid then setStatus u now x else x)) ∧
    (setStatus u now r).status = u.toStatus ∧
    (setStatus u now r).updated_at = now ∧
    rowsById (update_transaction tid u now s).2 tid = [setStatus u now r] ∧
    get_transaction tid (update_transaction tid u now s).2
      = (Except.error ApiError.serverError, (update_transaction tid u now s).2) := by
  have hrt : (r.transaction_id == tid) = true := (rowsById_singleton_mem s tid r h).2
  have h1 : update_transaction tid u now s
      = (Except.error ApiError.serverError,
         s.map (fun x => if x.transaction_id == tid then setStatus u now x else x)) := by
    simp [update_transaction, h, scalar_one_or_none, db_to_transaction_eq]
  have h2 : rowsById (update_transaction tid u now s).2 tid = [setStatus u now r] := by
    have hrteq : r.transaction_id = tid := by simpa using hrt
    rw [h1]
    rw [rowsById_map_update, h]
    simp [hrteq]
  refine ⟨h1, rfl, rfl, h2, ?_⟩
  simp [get_transaction, h2, scalar_one_or_none, db_to_transaction_eq]

/-- Witness for C5's theorem: the row `"t8"` of a one-row store, updated
from `pending` to `accepted` at time 9. -/
theorem update_commits_status_but_answers_500_witness :
    rowsById [rowKeyK] "t8" = [rowKeyK] ∧
    update_transaction "t8" UpdStatus.accepted 9 [rowKeyK]
      = (Except.error ApiError.serverError,
         [rowKeyK].map (fun x => if x.transaction_id == "t8"
            then setStatus UpdStatus.accepted 9 x else x)) ∧
    rowsById (update_transaction "t8" UpdStatus.accepted 9 [rowKeyK]).2 "t8"
      = [setStatus UpdStatus.accepted 9 rowKeyK] :=
  have hthm := update_commits_status_but_answers_500 [rowKeyK] "t8" rowKeyK
    UpdStatus.accepted 9 rfl
  ⟨rfl, hthm.1, hthm.2.2.2.1⟩

/-- C6: a successful update-status rewrites the store pointwise by a function
that keeps `transaction_id`, `type`, `offered_price`, `message`,
`idempotency_key` and `created_at` of every row, and is the identity on every
row whose `transaction_id` differs from the updated one; the store keeps its
length.  Only `status` and `updated_at` of the selected row can change. -/
theorem update_status_frame
    (s : Store) (tid : String) (r : TransactionDB) (u : UpdStatus) (now : Nat)
    (h : rowsById s tid = [r]) :
    ∃ f : TransactionDB → TransactionDB,
      (update_transaction tid u now s).2 = s.map f ∧
      (update_transaction tid u now s).2.length = s.length ∧
      (∀ x : TransactionDB, (f x).transaction_id = x.transaction_id ∧
        (f x).type = x.type ∧ (f x).offered_price = x.offered_price ∧
        (f x).message = x.message ∧ (f x).idempotency_key = x.idempotency_key ∧
        (f x).created_at = x.created_at) ∧
      (∀ x : TransactionDB, x.transaction_id ≠ tid → f x = x) := by
  refine ⟨fun x => if x.transaction_id == tid then setStatus u now x else x, ?_, ?_, ?_, ?_⟩
  · simp [update_transaction, h, scalar_one_or_none, db_to_transaction_eq]
  · simp [update_transaction, h, scalar_one_or_none, db_to_transaction_eq]
  · intro x
    by_cases hx : (x.transaction_id == tid) = true <;> simp [hx, setStatus]
  · intro x hx
    simp [hx]

/-- Witness for C6's theorem: updating row `"t8"` of a two-row store. -/
theorem update_status_frame_witness :
    ∃ f : TransactionDB → TransactionDB,
      (update_transaction "t8" UpdStatus.rejected 7 [rowEmptyKey, rowKeyK]).2
        = [rowEmptyKey, rowKeyK].map f ∧
      (update_transaction "t8" UpdStatus.rejected 7 [rowEmptyKey, rowKeyK]).2.length
        = [rowEmptyKey, rowKeyK].length ∧
      (∀ x : TransactionDB, (f x).transaction_id = x.transaction_id ∧
        (f x).type = x.type ∧ (f x).offered_price = x.offered_price ∧
        (f x).message = x.message ∧ (f x).idempotency_key = x.idempotency_key ∧
        (f x).created_at = x.created_at) ∧
      (∀ x : TransactionDB, x.transaction_id ≠ "t8" → f x = x) :=
  update_status_frame [rowEmptyKey, rowKeyK] "t8" rowKeyK UpdStatus.rejected 7 rfl

/-- C7: when the row exists, delete removes NOTHING and returns no snapshot:
the snapshot build (`db_to_transaction`, `src/main.py` line 280) raises
before `db.delete` runs, so the handler answers the generic 500 server
error with the store exactly as it was — the row is still present, and a
subsequent get on the same id answers 500 (the row is found and the
response build raises again), not the claimed not-found. -/
theorem delete_removes_nothing_and_answers_500
    (s : Store) (tid : String) (r : TransactionDB) (h : rowsById s tid = [r]) :
    delete_transaction tid s = (Except.error ApiError.serverError, s) ∧
    rowsById (delete_transaction tid s).2 tid = [r] ∧
    get_transaction tid (delete_transaction tid s).2
      = (Except.error ApiError.serverError, s) ∧
    ApiError.serverError ≠ ApiError.notFound := by
  have h1 : delete_transaction tid s = (Except.error ApiError.serverError, s) := by
    simp [delete_transaction, h, scalar_one_or_none, db_to_transaction_eq]
  refine ⟨h1, ?_, ?_, by decide⟩
  · rw [h1]
    exact h
  · rw [h1]
    simp [get_transaction, h, scalar_one_or_none, db_to_transaction_eq]

/-- Witness for C7's theorem: deleting row `"t0"` of a two-row store leaves
both rows in place and answers 500. -/
theorem delete_removes_nothing_and_answers_500_witness :
    rowsById [rowEmptyKey, rowKeyK] "t0" = [rowEmptyKey] ∧
    delete_transaction "t0" [rowEmptyKey, rowKeyK]
      = (Except.error ApiError.serverError, [rowEmptyKey, rowKeyK]) ∧
    rowsById (delete_transaction "t0" [rowEmptyKey, rowKeyK]).2 "t0" = [rowEmptyKey] :=
  have hthm := delete_removes_nothing_and_answers_500 [rowEmptyKey, rowKeyK]
    "t0" rowEmptyKey rfl
  ⟨rfl, hthm.1, hthm.2.1⟩

/-- C8: on an id matching no row, get, update-status and delete all answer
with the not-found client error — which is distinct from the generic server
error — and leave the store exactly as it was. -/
theorem missing_id_yields_not_found
    (s : Store) (tid : String) (u : UpdStatus) (now : Nat)
    (h : rowsById s tid = []) :
    get_transaction tid s = (Except.error ApiError.notFound, s) ∧
    update_transaction tid u now s = (Except.error ApiError.notFound, s) ∧
    delete_transaction tid s = (Except.error ApiError.notFound, s) ∧
    ApiError.notFound ≠ ApiError.serverError := by
  refine ⟨?_, ?_, ?_, by decide⟩ <;>
    simp [get_transaction, update_transaction, delete_transaction, h, scalar_one_or_none]

/-- Witness for C8's theorem: the unused id `"zzz"` against a one-row store. -/
theorem missing_id_yields_not_found_witness :
    rowsById [rowKeyK] "zzz" = [] ∧
    get_transaction "zzz" [rowKeyK] = (Except.error ApiError.notFound, [rowKeyK]) ∧
    update_transaction "zzz" UpdStatus.canceled 5 [rowKeyK]
      = (Except.error ApiError.notFound, [rowKeyK]) ∧
    delete_transaction "zzz" [rowKeyK] = (Except.error ApiError.notFound, [rowKeyK]) :=
  have hthm := missing_id_yields_not_found [rowKeyK] "zzz" UpdStatus.canceled 5 rfl
  ⟨rfl, hthm.1, hthm.2.1, hthm.2.2.1⟩

/-- Counterexample to C9 as stated: a create whose pre-check saw no row for
key `"k"` but whose insert runs against a state where a concurrent create
has committed that key.  The uniqueness violation is NOT resolved by a
fallback lookup returning the existing row — the `except` handler surfaces
it to the caller as the generic 500 server error. -/
theorem create_conflict_not_resolved_by_fallback :
    rowsByKey ([] : Store) "k" = [] ∧
    rowsByKey [rowKeyK] "k" = [rowKeyK] ∧
    create_transaction samplePayload (some "k") "t9" 7 [] [rowKeyK]
      = (Except.error ApiError.serverError, [rowKeyK]) :=
  ⟨rfl, rfl, rfl⟩

/-- C9 (amended): when the insert of a create with a non-empty key fails on
the idempotency-key uniqueness violation (the key committed concurrently
after the pre-check missed it), the handler performs no fallback
lookup-by-key read — it rolls back and surfaces the conflict to the caller
as the generic 500 server error, leaving the store as the insert found it. -/
theorem create_conflict_surfaces_server_error
    (p : NewTransactionRequest) (k : String) (newId : String) (now : Nat)
    (pre ins : Store) (hk : k ≠ "") (hpre : rowsByKey pre k = [])
    (hconf : ins.any (fun x => x.idempotency_key == some k) = true) :
    create_transaction p (some k) newId now pre ins
      = (Except.error ApiError.serverError, ins) := by
  have hkt : pyTruthy (some k) = true := pyTruthy_of_ne_empty k hk
  have hviol : insertViolates ins (newRow p (some k) newId now) = true := by
    simp [insertViolates, newRow, hconf]
  simp [create_transaction, hkt, hpre, scalar_one_or_none, hviol]

/-- Witness for C9's amended theorem at the concrete race of the
counterexample input. -/
theorem create_conflict_surfaces_server_error_witness :
    ("k" ≠ "") ∧ rowsByKey ([] : Store) "k" = [] ∧
    [rowKeyK].any (fun x => x.idempotency_key == some "k") = true ∧
    create_transaction samplePayload (some "k") "t9" 7 [] [rowKeyK]
      = (Except.error ApiError.serverError, [rowKeyK]) :=
  ⟨by decide, rfl, by decide,
    create_conflict_surfaces_server_error samplePayload "k" "t9" 7 [] [rowKeyK]
      (by decide) rfl (by decide)⟩

/-- C10: a present-but-empty `X-Idempotency-Key` is falsy, so create skips
the existing-row lookup, yet the new row stores the empty string as its
`idempotency_key` (the first call answers 500 from the response build, but
the commit has already made the row durable); a second create supplying the
empty-string key again skips the lookup and does not return the first row —
it attempts a fresh insert against the same stored key, which hits the
uniqueness constraint and surfaces the 500 error. -/
theorem empty_key_skips_lookup_but_is_stored
    (p p2 : NewTransactionRequest) (s : Store) (newId newId2 : String)
    (now now2 : Nat)
    (hnok : rowsByKey s "" = []) (hfresh : ∀ x ∈ s, x.transaction_id ≠ newId) :
    pyTruthy (some "") = false ∧
    (newRow p (some "") newId now).idempotency_key = some "" ∧
    create_transaction_seq p (some "") newId now s
      = (Except.error ApiError.serverError, s ++ [newRow p (some "") newId now]) ∧
    create_transaction_seq p2 (some "") newId2 now2 (s ++ [newRow p (some "") newId now])
      = (Except.error ApiError.serverError, s ++ [newRow p (some "") newId now]) := by
  have hviol : insertViolates s (newRow p (some "") newId now) = false := by
    refine insertViolates_eq_false s _ ?_ ?_
    · intro x hx
      simpa [newRow] using hfresh x hx
    · intro x hx k hk2
      have hx2 := (rowsByKey_eq_nil_iff s "").mp hnok x hx
      have hkk : "" = k := by simpa [newRow] using hk2
      simpa [← hkk] using hx2
  have hconf2 : insertViolates (s ++ [newRow p (some "") newId now])
      (newRow p2 (some "") newId2 now2) = true := by
    simp [insertViolates, newRow]
  refine ⟨rfl, rfl, ?_, ?_⟩
  · simp [create_transaction_seq, create_transaction, pyTruthy, hviol, db_to_transaction_eq]
  · simp [create_transaction_seq, create_transaction, pyTruthy, hconf2]

/-- Witness for C10's theorem: the empty store and fresh ids `"t1"`,
`"t2"`. -/
theorem empty_key_skips_lookup_but_is_stored_witness :
    pyTruthy (some "") = false ∧
    (newRow samplePayload (some "") "t1" 0).idempotency_key = some "" ∧
    create_transaction_seq samplePayload (some "") "t1" 0 []
      = (Except.error ApiError.serverError,
         [] ++ [newRow samplePayload (some "") "t1" 0]) ∧
    create_transaction_seq samplePayload (some "") "t2" 1
        ([] ++ [newRow samplePayload (some "") "t1" 0])
      = (Except.error ApiError.serverError,
         [] ++ [newRow samplePayload (some "") "t1" 0]) :=
  empty_key_skips_lookup_but_is_stored samplePayload samplePayload [] "t1" "t2" 0 1
    rfl (by simp)
